import Mathlib

/-!
Shallow embedding of the evXExpo charge-session lifecycle and settlement
pipeline.

Sources embedded here:
* `src/src/screens/DriverMapScreen.tsx` — client operations
  `startNavigation`, `startCharge`, `endCharge`, the Cancel-Navigation
  handler, and `handleSaveBilling`;
* `src/unnamed/part_000` — the screen variant containing `resetStation`
  and the stations `onSnapshot` handler with the 15-minute lazy sweep;
* `src/Functions/index.js` — the cloud functions `startChargeProcess`
  (phase 1, authorization) and `processCharge` (phase 2, capture & split).

Modelling conventions:
* JavaScript numbers are modelled as exact rationals (`ℚ`) and exact
  integers (`ℤ` for millisecond timestamps).  Every concrete value a
  theorem below evaluates (10.00 × 0.95, 90000/60000 × 2.00, …) is exactly
  representable in binary64 and the corresponding double operations are
  exact there, so the rational model agrees with the JavaScript runtime on
  those inputs.
* Optional / possibly-`undefined` fields become `Option`; JavaScript
  truthiness tests (`!user.stripeToken`, `station.enRouteTime`,
  `ownerData.walletBalance || 0`) are modelled by explicit `jsTruthy…`
  helpers so that falsy-but-present values (`0`, `""`) behave as in JS.
* A Firestore `update({...})` call is modelled as a field-level
  `StationUpdate` record (only the listed fields are written), and each
  client operation returns the ordered list of persistent writes it
  performs (`StoreWrite`), so frame properties ("no write happens") are
  directly visible.
-/

namespace EvX

/-- Station occupancy status, the TS union `'available' | 'enRoute' | 'charging'`
from `DriverMapScreen.tsx`. -/
inductive StationStatus
  | available
  | enRoute
  | charging
deriving DecidableEq, BEq, Repr

/-- The fields of the `users` collection documents that the embedded code
paths read or write (`interface UserData` in `DriverMapScreen.tsx`, plus the
`stripeToken` consumed by the cloud functions). -/
structure UserData where
  email : String
  role : String
  walletBalance : Option ℚ
  stripeToken : Option String
deriving DecidableEq, Repr

/-- `interface StationData` from `DriverMapScreen.tsx`, restricted to the
fields the embedded operations touch.  `ownerStripeId` is the station-document
field read by `processCharge` in `Functions/index.js`. -/
structure StationData where
  id : String
  networkType : String
  chargeRate : String
  address : String
  available : Bool
  latitude : ℚ
  longitude : ℚ
  ownerId : String
  ownerStripeId : Option String
  status : StationStatus
  driverId : Option String
  enRouteTime : Option ℤ
deriving DecidableEq, Repr

/-- `interface ChargeSession` from `DriverMapScreen.tsx` (the `charges`
collection documents), plus the `error` field the cloud functions write. -/
structure ChargeSession where
  id : String
  stationId : String
  driverId : String
  startTime : ℤ
  endTime : Option ℤ
  totalCost : Option ℚ
  status : Option String
  paymentIntentId : Option String
  error : Option String
deriving DecidableEq, Repr

/-- A record of the `platform_earnings` collection, as written by
`endCharge` (`{ chargeId, amount, timestamp }`). -/
structure PlatformEarning where
  chargeId : String
  amount : ℚ
  timestamp : ℤ
deriving DecidableEq, Repr

/-- JavaScript truthiness of a possibly-`undefined` string field:
`undefined` and `""` are falsy. -/
def jsTruthyStr : Option String → Bool
  | none => false
  | some s => s ≠ ""

/-- JavaScript truthiness of a possibly-`undefined` numeric field:
`undefined` and `0` are falsy. -/
def jsTruthyInt : Option ℤ → Bool
  | none => false
  | some v => v ≠ 0

/-- `x || d` on a possibly-`undefined` JS number (used for
`ownerData.walletBalance || 0` in `endCharge`). -/
def jsOrQ : Option ℚ → ℚ → ℚ
  | none, d => d
  | some v, d => if v = 0 then d else v

/-- `Math.round`: round half toward positive infinity. -/
def jsRound (q : ℚ) : ℤ := ⌊q + 1/2⌋

/-- Characters before the first `'_'`. -/
def takeUntilUnderscore : List Char → List Char
  | [] => []
  | c :: cs => if c = '_' then [] else c :: takeUntilUnderscore cs

/-- `s.split('_')[0]`: the segment before the first `'_'`, or the whole
string when no `'_'` occurs. -/
def jsSplitHead (s : String) : String := String.mk (takeUntilUnderscore s.data)

/-- Value of a digit character. -/
def digitVal (c : Char) : ℕ := c.toNat - 48

/-- Natural number denoted by a digit list. -/
def digitsVal (cs : List Char) : ℕ := cs.foldl (fun a c => a * 10 + digitVal c) 0

/-- Split a character list at the first `'.'`: the characters before it,
and, when a `'.'` occurs, the characters after it. -/
def splitAtDot : List Char → List Char × Option (List Char)
  | [] => ([], none)
  | c :: cs =>
    if c = '.' then ([], some cs)
    else
      let r := splitAtDot cs
      (c :: r.1, r.2)

/-- `parseFloat` on the well-formed non-negative decimal literals this app
stores in `chargeRate` (e.g. `"2.00"`): integer part, optional fractional
part.  (On such literals binary64 `parseFloat` and this exact rational agree
whenever the value is exactly representable, which holds for every literal a
theorem below evaluates.) -/
def parseDecimalQ (s : String) : ℚ :=
  match splitAtDot s.data with
  | (i, none) => (digitsVal i : ℚ)
  | (i, some f) => (digitsVal i : ℚ) + (digitsVal f : ℚ) / (10 ^ f.length)

/-- A Firestore `stations` document `update({...})` payload: `some v` means
the field is written with `v`; `none` means the field is not mentioned and
keeps its previous value.  (For `driverId` / `enRouteTime` the written value
is itself optional: `some none` models writing `null`.) -/
structure StationUpdate where
  status : Option StationStatus := none
  available : Option Bool := none
  driverId : Option (Option String) := none
  enRouteTime : Option (Option ℤ) := none
deriving DecidableEq, Repr

/-- Apply an `update({...})` payload to a station document. -/
def applyStationUpdate (u : StationUpdate) (st : StationData) : StationData :=
  { st with
    status := u.status.getD st.status
    available := u.available.getD st.available
    driverId := u.driverId.getD st.driverId
    enRouteTime := u.enRouteTime.getD st.enRouteTime }

/-- `startNavigation`'s station write (`DriverMapScreen.tsx` 865-869 and
`part_000` 335-339): `{ status: 'enRoute', driverId: userData.email,
enRouteTime: Date.now() }`. -/
def startNavUpdate (email : String) (now : ℤ) : StationUpdate :=
  { status := some .enRoute, driverId := some (some email), enRouteTime := some (some now) }

/-- `startCharge`'s station write (`DriverMapScreen.tsx` 948-951):
`{ status: 'charging', available: false }` — `driverId` is not mentioned. -/
def startChargeStationUpdate : StationUpdate :=
  { status := some .charging, available := some false }

/-- `endCharge`'s station write (`DriverMapScreen.tsx` 1134-1135):
`{ status: 'available', driverId: null }` — neither `enRouteTime` nor the
`available` flag is mentioned. -/
def endChargeStationUpdate : StationUpdate :=
  { status := some .available, driverId := some none }

/-- The Cancel-Navigation handler's station write (`DriverMapScreen.tsx`
1441-1445): `{ status: 'available', driverId: null, enRouteTime: null }` —
the `available` flag is not mentioned. -/
def cancelNavigationUpdate : StationUpdate :=
  { status := some .available, driverId := some none, enRouteTime := some none }

/-- `resetStation`'s station write (`part_000` 364-369): `{ status:
'available', available: true, driverId: null, enRouteTime: null }`. -/
def resetStationUpdate : StationUpdate :=
  { status := some .available, available := some true
    driverId := some none, enRouteTime := some none }

/-- One persistent write performed by a client operation. -/
inductive StoreWrite
  | stationUpdate (stationId : String) (u : StationUpdate)
  | chargeCreate (cs : ChargeSession)
  | chargeUpdate (chargeId : String) (endTime : ℤ) (totalCost : ℚ)
  | userWalletUpdate (userId : String) (newBalance : ℚ)
  | userCreate (userId : String) (u : UserData)
  | platformEarningSet (docId : String) (rec : PlatformEarning)
deriving DecidableEq, Repr

/-- `stations.filter(s => s.status === 'enRoute' && s.driverId === email).length`. -/
def enRouteCount (stations : List StationData) (email : String) : ℕ :=
  (stations.filter (fun s => s.status == StationStatus.enRoute && s.driverId == some email)).length

/-- `stations.filter(s => s.status === 'charging' && s.driverId === email).length`. -/
def chargingCount (stations : List StationData) (email : String) : ℕ :=
  (stations.filter (fun s => s.status == StationStatus.charging && s.driverId == some email)).length

/-- Outcome of `startNavigation`. -/
inductive NavResult
  | busy
  | ok
deriving DecidableEq, Repr

/-- `startNavigation` (`DriverMapScreen.tsx` 831-894, identically
`part_000` 317-357), success path of the confirmation dialog: rejects with
the Busy alert when the calling driver already has a station in `enRoute` or
`charging` status; otherwise writes `{ status: 'enRoute', driverId:
userData.email, enRouteTime: Date.now() }` to the selected station.  The
selected station's own status is never consulted. -/
def startNavigation (stations : List StationData) (user : UserData)
    (sel : StationData) (now : ℤ) : NavResult × List StoreWrite :=
  if enRouteCount stations user.email > 0 then (.busy, [])
  else if chargingCount stations user.email > 0 then (.busy, [])
  else (.ok, [.stationUpdate sel.id (startNavUpdate user.email now)])

/-- The driver's coordinate (`userLocation`). -/
structure Coord where
  latitude : ℚ
  longitude : ℚ
deriving DecidableEq, Repr

/-- The charge session created by `startCharge` (`DriverMapScreen.tsx`
954-960): id `` `${userData.email}_${Date.now()}` ``, `driverId:
userData.email`, `status: 'pending'`. -/
def mkChargeSession (user : UserData) (sel : StationData) (now : ℤ) : ChargeSession :=
  { id := user.email ++ "_" ++ toString now
    stationId := sel.id
    driverId := user.email
    startTime := now
    endTime := none
    totalCost := none
    status := some "pending"
    paymentIntentId := none
    error := none }

/-- Outcome of `startCharge`. -/
inductive StartChargeResult
  | busy
  | tooFar
  | billingRequired
  | ok (session : ChargeSession)
deriving DecidableEq, Repr

/-- `startCharge` (`DriverMapScreen.tsx` 896-1010, identically
`part_000` 381-440 up to the billing-failure UI).  `calcDist` abstracts
`calculateDistance` (the haversine formula); the code branches on its value
only.  Check order as in the source: Busy (already charging elsewhere),
Too-Far (distance > 0.5 mi), Billing-Required (`!userData.stripeToken`),
then the two writes: station `{ status: 'charging', available: false }` and
creation of the `charges` document. -/
def startCharge (calcDist : ℚ → ℚ → ℚ → ℚ → ℚ) (stations : List StationData)
    (user : UserData) (sel : StationData) (loc : Coord) (now : ℤ) :
    StartChargeResult × List StoreWrite :=
  if chargingCount stations user.email > 0 then (.busy, [])
  else
    if calcDist loc.latitude loc.longitude sel.latitude sel.longitude > 1/2 then (.tooFar, [])
    else
      if ¬ jsTruthyStr user.stripeToken then (.billingRequired, [])
      else
        let session := mkChargeSession user sel now
        (.ok session,
          [.stationUpdate sel.id startChargeStationUpdate, .chargeCreate session])

/-- The cost computation of `endCharge` (`DriverMapScreen.tsx` 1120-1122):
`duration = (endTime - chargeSession.startTime) / (1000 * 60)` minutes,
`totalCost = duration * parseFloat(selectedStation.chargeRate)`. -/
def endChargeTotalCost (cs : ChargeSession) (st : StationData) (now : ℤ) : ℚ :=
  (((now - cs.startTime : ℤ) : ℚ) / (1000 * 60)) * parseDecimalQ st.chargeRate

/-- Outcome of `endCharge`. -/
inductive EndChargeResult
  | noSession
  | outNet
  | ended (totalCost : ℚ)
deriving DecidableEq, Repr

/-- Full result of `endCharge`: outcome, the local `chargeSession` state
after the call (`setChargeSession(null)` on both the Out-net and the normal
path), and the ordered persistent writes. -/
structure EndChargeOut where
  result : EndChargeResult
  newSession : Option ChargeSession
  writes : List StoreWrite
deriving DecidableEq, Repr

/-- `endCharge` (`DriverMapScreen.tsx` 1104-1176).  Guard: missing session
or station → error alert, nothing happens.  `networkType === 'Out-net'` →
clear the local session, no writes.  Otherwise: `duration = (endTime -
startTime) / (1000*60)`; `totalCost = duration * parseFloat(chargeRate)`;
writes, in order: `charges` update `{ endTime, totalCost }`; station update
`{ status: 'available', driverId: null }`; owner wallet read-modify-write
(`walletBalance || 0` plus the 95% owner share, or document creation when
the owner document is missing); one `platform_earnings` set at doc id
`` `${chargeSession.id}_platform` `` carrying the 5% platform share. -/
def endCharge (chargeSession : Option ChargeSession) (selectedStation : Option StationData)
    (users : String → Option UserData) (now : ℤ) : EndChargeOut :=
  match chargeSession, selectedStation with
  | none, _ => { result := .noSession, newSession := none, writes := [] }
  | some cs, none => { result := .noSession, newSession := some cs, writes := [] }
  | some cs, some st =>
    if st.networkType = "Out-net" then
      { result := .outNet, newSession := none, writes := [] }
    else
      let endTime := now
      let totalCost := endChargeTotalCost cs st now
      let ownerShare := totalCost * (95/100)
      let platformShare := totalCost * (5/100)
      let ownerWrite : StoreWrite :=
        match users st.ownerId with
        | some ownerData =>
          .userWalletUpdate st.ownerId (jsOrQ ownerData.walletBalance 0 + ownerShare)
        | none =>
          .userCreate st.ownerId
            { email := "owner_" ++ st.ownerId ++ "@example.com"
              role := "Owner"
              walletBalance := some ownerShare
              stripeToken := none }
      { result := .ended totalCost
        newSession := none
        writes :=
          [.chargeUpdate cs.id endTime totalCost,
           .stationUpdate st.id endChargeStationUpdate,
           ownerWrite,
           .platformEarningSet (cs.id ++ "_platform")
             { chargeId := cs.id, amount := platformShare, timestamp := endTime }] }

/-- The Cancel-Navigation handler (`DriverMapScreen.tsx` 1432-1457): find
the calling driver's `enRoute` station and write `cancelNavigationUpdate`
to it; no write when there is none. -/
def cancelNavigation (stations : List StationData) (email : String) : List StoreWrite :=
  match stations.find? (fun s => s.status == StationStatus.enRoute && s.driverId == some email) with
  | some st => [.stationUpdate st.id cancelNavigationUpdate]
  | none => []

/-- Per-station body of the stations `onSnapshot` handler's lazy sweep
(`part_000` 247-254): a station with `status === 'enRoute'` and a truthy
`enRouteTime` older than `15 * 60 * 1000` ms is passed to `resetStation`,
whose write is `resetStationUpdate`. -/
def sweepStation (now : ℤ) (st : StationData) : StationData :=
  if st.status = .enRoute ∧ jsTruthyInt st.enRouteTime = true then
    if now - st.enRouteTime.getD 0 > 15 * 60 * 1000 then
      applyStationUpdate resetStationUpdate st
    else st
  else st

/-- The stations `onSnapshot` handler's lazy check (`part_000` 238-255),
as the store state it leaves behind: every station of the snapshot is run
through `sweepStation`. -/
def stationsSnapshotCheck (now : ℤ) (stations : List StationData) : List StationData :=
  stations.map (sweepStation now)

/-- The occupancy invariant of the spec:
status = available ⇔ occupying-driver unset. -/
def stationInv (st : StationData) : Prop :=
  st.status = .available ↔ st.driverId = none

instance (st : StationData) : Decidable (stationInv st) := by
  unfold stationInv; infer_instance

/-- The user-document key at which `startChargeProcess`
(`Functions/index.js` line 10) looks up the driver's payment method:
`driverId.split('_')[0]`. -/
def startChargeProcessUserKey (driverId : String) : String := jsSplitHead driverId

/-- The user-document key at which `processCharge` (`Functions/index.js`
line 54) looks up the driver's payment method: `driverId.split('_')[0]`. -/
def processChargeUserKey (driverId : String) : String := jsSplitHead driverId

/-- The user-document id to which `handleSaveBilling`
(`DriverMapScreen.tsx` 1083-1085) writes the `stripeToken`: the identity
provider's `auth.currentUser.uid`. -/
def billingUserDocId (uid : String) : String := uid

/-- A Stripe transfer issued by `processCharge`. -/
structure TransferRec where
  amount : ℤ
  destination : String
deriving DecidableEq, Repr

/-- A `(before, after)` document-update event on a `charges` document, as
delivered to `onDocumentUpdated`. -/
structure ChargeEvent where
  before : ChargeSession
  after : ChargeSession
deriving DecidableEq, Repr

/-- Store and payment-provider state visible to `processCharge`: the
`users` and `stations` collections, the current content of the triggering
`charges` document, and the append-only logs of payment captures
(`paymentIntents.update`+`confirm`, recorded as (paymentIntentId, amount))
and owner transfers. -/
structure SettlementState where
  users : String → Option UserData
  stations : String → Option StationData
  charge : ChargeSession
  captures : List (String × ℤ)
  transfers : List TransferRec

/-- `processCharge` (`Functions/index.js` 47-99).  Guard: `!prevData.endTime
&& data.endTime`, reading only the delivered event.  Then: user lookup at
`driverId.split('_')[0]` (an absent user document makes `user.stripeToken`
throw before any write, leaving the store unchanged); failure path writing
`status: 'failed'` when the stripe token or payment intent id is falsy, or
when the stripe calls reject (`totalCost` absent makes the amount `NaN` and
the update call reject); success path: capture of
`amount = Math.round(totalCost * 100)` on the recorded payment intent,
`platformCut = Math.round(amount * 0.05)`, `ownerCut = amount - platformCut`
transferred to `station.ownerStripeId` when the station document exists and
has one, and finally `status: 'completed'`.  No step consults the current
`status` of the charge document. -/
def processCharge (ev : ChargeEvent) (s : SettlementState) : SettlementState :=
  let data := ev.after
  let prevData := ev.before
  if !jsTruthyInt prevData.endTime && jsTruthyInt data.endTime then
    match s.users (processChargeUserKey data.driverId) with
    | none => s
    | some user =>
      if !jsTruthyStr user.stripeToken || !jsTruthyStr data.paymentIntentId then
        { s with charge := { s.charge with
                             status := some "failed"
                             error := some "Missing payment details" } }
      else
        match data.paymentIntentId, data.totalCost with
        | some pid, some cost =>
          let amount := jsRound (cost * 100)
          let platformCut := jsRound ((amount : ℚ) * (5/100))
          let ownerCut := amount - platformCut
          let transfers :=
            match s.stations data.stationId with
            | some st =>
              match st.ownerStripeId with
              | some dest => s.transfers ++ [{ amount := ownerCut, destination := dest }]
              | none => s.transfers
            | none => s.transfers
          { s with
            captures := s.captures ++ [(pid, amount)]
            transfers := transfers
            charge := { s.charge with status := some "completed" } }
        | _, _ =>
          { s with charge := { s.charge with
                               status := some "failed"
                               error := some "stripe error" } }
  else s

/-- `StoreWrite` classifier: is the write an append to `platform_earnings`? -/
def isPlatformEarningWrite : StoreWrite → Bool
  | .platformEarningSet _ _ => true
  | _ => false

lemma jsOrQ_some (b : ℚ) : jsOrQ (some b) 0 = b := by
  by_cases hb : b = 0 <;> simp [jsOrQ, hb]

lemma parseDecimalQ_two : parseDecimalQ "2.00" = 2 := by
  have h : parseDecimalQ "2.00" =
      (digitsVal ['2'] : ℚ) + (digitsVal ['0', '0'] : ℚ) / (10 ^ 2) := rfl
  rw [h, show digitsVal ['2'] = 2 from rfl, show digitsVal ['0', '0'] = 0 from rfl]
  norm_num

/-- C6: `endCharge` computes totalCost = ((endTime − startTime) in minutes) ×
the station's rate parsed at close time (both in the value it reports and in
the `charges` update it writes); in particular, a session with start = T0
closed at T0 + 90000 ms at a station with rate "2.00" costs exactly 3.00. -/
theorem claim6_endCharge_totalCost (cs : ChargeSession) (st : StationData)
    (users : String → Option UserData) (now : ℤ)
    (hnet : st.networkType ≠ "Out-net") :
    (endCharge (some cs) (some st) users now).result =
      .ended (endChargeTotalCost cs st now)
    ∧ (endCharge (some cs) (some st) users now).writes.head? =
      some (.chargeUpdate cs.id now (endChargeTotalCost cs st now))
    ∧ (st.chargeRate = "2.00" → now = cs.startTime + 90000 →
        (endCharge (some cs) (some st) users now).result = .ended 3) := by
  refine ⟨by simp [endCharge, hnet], by simp [endCharge, hnet], fun hrate hnow => ?_⟩
  have h3 : endChargeTotalCost cs st now = 3 := by
    rw [endChargeTotalCost, hrate, hnow, parseDecimalQ_two]
    push_cast
    ring_nf
  simp [endCharge, hnet, h3]

def w6Station : StationData :=
  { id := "s6", networkType := "In-net", chargeRate := "2.00", address := "6 Elm St"
    available := false, latitude := 0, longitude := 0, ownerId := "o6"
    ownerStripeId := none, status := .charging, driverId := some "drv@x.com"
    enRouteTime := none }

def w6Session : ChargeSession :=
  { id := "drv@x.com_0", stationId := "s6", driverId := "drv@x.com", startTime := 0
    endTime := none, totalCost := none, status := some "authorized"
    paymentIntentId := some "pi6", error := none }

theorem claim6_endCharge_totalCost_witness :
    (endCharge (some w6Session) (some w6Station) (fun _ => none) 90000).result =
      .ended 3 :=
  (claim6_endCharge_totalCost w6Session w6Station (fun _ => none) 90000
    (by decide)).2.2 (by decide) (by decide)

/-- C10: on a station whose `networkType` is `'Out-net'`, `endCharge` clears
the local session state and performs no persistent writes at all: no
`endTime`/`totalCost` update, no station release, no wallet credit, no
`platform_earnings` record. -/
theorem claim10_endCharge_outnet_frame (cs : ChargeSession) (st : StationData)
    (users : String → Option UserData) (now : ℤ)
    (hnet : st.networkType = "Out-net") :
    endCharge (some cs) (some st) users now =
      { result := .outNet, newSession := none, writes := [] } := by
  simp [endCharge, hnet]

def w10Station : StationData :=
  { id := "s10", networkType := "Out-net", chargeRate := "2.00", address := "10 Elm St"
    available := false, latitude := 0, longitude := 0, ownerId := "o10"
    ownerStripeId := none, status := .charging, driverId := some "drv@x.com"
    enRouteTime := none }

def w10Session : ChargeSession :=
  { id := "drv@x.com_5", stationId := "s10", driverId := "drv@x.com", startTime := 5
    endTime := none, totalCost := none, status := some "authorized"
    paymentIntentId := some "pi10", error := none }

theorem claim10_endCharge_outnet_frame_witness :
    endCharge (some w10Session) (some w10Station) (fun _ => none) 90005 =
      { result := .outNet, newSession := none, writes := [] } :=
  claim10_endCharge_outnet_frame w10Session w10Station (fun _ => none) 90005 (by decide)

/-- C3: when a session whose computed `totalCost` is 10.00 closes at a
station whose owner has no linked payout destination (`ownerStripeId`
absent), the owner's wallet balance is written to its current value plus
exactly 9.50 (the 95% owner share) and the write list contains exactly one
`platform_earnings` record, of amount 0.50, keyed by the session id. -/
theorem claim3_wallet_credit_and_platform_record (cs : ChargeSession)
    (st : StationData) (users : String → Option UserData) (owner : UserData)
    (b : ℚ) (now : ℤ)
    (hnet : st.networkType ≠ "Out-net")
    (hnodest : st.ownerStripeId = none)
    (howner : users st.ownerId = some owner)
    (hbal : owner.walletBalance = some b)
    (hcost : endChargeTotalCost cs st now = 10) :
    endCharge (some cs) (some st) users now =
      { result := .ended 10
        newSession := none
        writes := [.chargeUpdate cs.id now 10,
                   .stationUpdate st.id endChargeStationUpdate,
                   .userWalletUpdate st.ownerId (b + 19/2),
                   .platformEarningSet (cs.id ++ "_platform")
                     { chargeId := cs.id, amount := 1/2, timestamp := now }] }
    ∧ ((endCharge (some cs) (some st) users now).writes.filter
        isPlatformEarningWrite).length = 1 := by
  have hshare : (10 : ℚ) * (95/100) = 19/2 := by norm_num
  have hplat : (10 : ℚ) * (5/100) = 1/2 := by norm_num
  have hmain : endCharge (some cs) (some st) users now =
      { result := .ended 10
        newSession := none
        writes := [.chargeUpdate cs.id now 10,
                   .stationUpdate st.id endChargeStationUpdate,
                   .userWalletUpdate st.ownerId (b + 19/2),
                   .platformEarningSet (cs.id ++ "_platform")
                     { chargeId := cs.id, amount := 1/2, timestamp := now }] } := by
    simp [endCharge, hnet, howner, hbal, hcost, hshare, hplat, jsOrQ_some]
  exact ⟨hmain, by rw [hmain]; simp [isPlatformEarningWrite]⟩

def w3Station : StationData :=
  { id := "s3", networkType := "In-net", chargeRate := "2.00", address := "3 Elm St"
    available := false, latitude := 0, longitude := 0, ownerId := "o3"
    ownerStripeId := none, status := .charging, driverId := some "drv@x.com"
    enRouteTime := none }

def w3Session : ChargeSession :=
  { id := "drv@x.com_0", stationId := "s3", driverId := "drv@x.com", startTime := 0
    endTime := none, totalCost := none, status := some "authorized"
    paymentIntentId := some "pi3", error := none }

def w3Owner : UserData :=
  { email := "own3@x.com", role := "Owner", walletBalance := some 7, stripeToken := none }

def w3Users : String → Option UserData :=
  fun k => if k = "o3" then some w3Owner else none

theorem claim3_wallet_credit_and_platform_record_witness :
    endCharge (some w3Session) (some w3Station) w3Users 300000 =
      { result := .ended 10
        newSession := none
        writes := [.chargeUpdate "drv@x.com_0" 300000 10,
                   .stationUpdate "s3" endChargeStationUpdate,
                   .userWalletUpdate "o3" (7 + 19/2),
                   .platformEarningSet "drv@x.com_0_platform"
                     { chargeId := "drv@x.com_0", amount := 1/2, timestamp := 300000 }] }
    ∧ ((endCharge (some w3Session) (some w3Station) w3Users 300000).writes.filter
        isPlatformEarningWrite).length = 1 :=
  claim3_wallet_credit_and_platform_record w3Session w3Station w3Users w3Owner 7 300000
    (by decide) rfl rfl rfl
    (by rw [show endChargeTotalCost w3Session w3Station 300000 =
              (((300000 - 0 : ℤ) : ℚ) / (1000 * 60)) * parseDecimalQ "2.00" from rfl,
            parseDecimalQ_two]
        norm_num)

def c2Station : StationData :=
  { id := "s2", networkType := "In-net", chargeRate := "2.00", address := "2 Elm St"
    available := false, latitude := 0, longitude := 0, ownerId := "o2"
    ownerStripeId := none, status := .enRoute, driverId := some "d1@x.com"
    enRouteTime := some 500 }

def c2Driver2 : UserData :=
  { email := "d2@x.com", role := "Driver", walletBalance := some 0, stripeToken := some "tok2" }

/-- C2 counterexample: station s2 is `enRoute` and occupied by driver
d1\@x.com, yet `startNavigation` by the distinct, non-busy driver d2\@x.com
does not fail — it succeeds and writes d2\@x.com as the occupying driver,
so the station does not remain occupied by the first driver. -/
theorem claim2_reserve_occupied_succeeds_cex :
    startNavigation [c2Station] c2Driver2 c2Station 1000 =
      (.ok, [.stationUpdate "s2" (startNavUpdate "d2@x.com" 1000)])
    ∧ c2Station.status ≠ .available
    ∧ c2Station.driverId = some "d1@x.com"
    ∧ (applyStationUpdate (startNavUpdate "d2@x.com" 1000) c2Station).driverId =
        some "d2@x.com" := by
  refine ⟨?_, by decide, rfl, rfl⟩
  rfl

/-- C2 amended: `startNavigation` checks only that the calling driver has no
station of their own in `enRoute` or `charging` status (the Busy guard);
whenever the caller is not busy it succeeds and writes status=enRoute,
occupying-driver and en-route-timestamp to the selected station regardless
of the station's current status, overwriting any existing occupant.  No
AlreadyOccupied check exists. -/
theorem claim2_startNavigation_no_occupancy_check (stations : List StationData)
    (user : UserData) (sel : StationData) (now : ℤ)
    (h1 : enRouteCount stations user.email = 0)
    (h2 : chargingCount stations user.email = 0) :
    startNavigation stations user sel now =
      (.ok, [.stationUpdate sel.id (startNavUpdate user.email now)]) := by
  simp [startNavigation, h1, h2]

theorem claim2_startNavigation_no_occupancy_check_witness :
    startNavigation [] c2Driver2 c2Station 7 =
      (.ok, [.stationUpdate "s2" (startNavUpdate "d2@x.com" 7)]) :=
  claim2_startNavigation_no_occupancy_check [] c2Driver2 c2Station 7 rfl rfl

def c4Station : StationData :=
  { id := "s4", networkType := "In-net", chargeRate := "2.00", address := "4 Elm St"
    available := false, latitude := 0, longitude := 0, ownerId := "o4"
    ownerStripeId := none, status := .charging, driverId := some "d4@x.com"
    enRouteTime := some 500 }

def c4Session : ChargeSession :=
  { id := "d4@x.com_0", stationId := "s4", driverId := "d4@x.com", startTime := 0
    endTime := none, totalCost := none, status := some "authorized"
    paymentIntentId := some "pi4", error := none }

/-- C4 counterexample: the station write performed by `endCharge` on normal
session end sets status=available and clears the occupying driver, but it
leaves the en-route timestamp set (here `some 500`) and leaves the
availability flag `false` — contradicting the claim that release leaves
en-route-timestamp unset and the availability flag true. -/
theorem claim4_endCharge_release_cex :
    (endCharge (some c4Session) (some c4Station) (fun _ => none) 60000).writes.get? 1 =
      some (.stationUpdate "s4" endChargeStationUpdate)
    ∧ (applyStationUpdate endChargeStationUpdate c4Station).status = .available
    ∧ (applyStationUpdate endChargeStationUpdate c4Station).driverId = none
    ∧ (applyStationUpdate endChargeStationUpdate c4Station).enRouteTime = some 500
    ∧ (applyStationUpdate endChargeStationUpdate c4Station).available = false := by
  exact ⟨rfl, rfl, rfl, rfl, rfl⟩

/-- C4 amended: only the timeout reset (`resetStation`) writes all four
fields (status=available, occupying-driver unset, en-route-timestamp unset,
availability flag true).  The cancel-navigation write clears status,
occupying-driver and en-route-timestamp but leaves the availability flag
unchanged; the `endCharge` write sets only status and occupying-driver,
leaving both the en-route timestamp and the availability flag unchanged. -/
theorem claim4_release_field_effects (st : StationData) :
    ((applyStationUpdate resetStationUpdate st).status = .available
      ∧ (applyStationUpdate resetStationUpdate st).driverId = none
      ∧ (applyStationUpdate resetStationUpdate st).enRouteTime = none
      ∧ (applyStationUpdate resetStationUpdate st).available = true)
    ∧ ((applyStationUpdate cancelNavigationUpdate st).status = .available
      ∧ (applyStationUpdate cancelNavigationUpdate st).driverId = none
      ∧ (applyStationUpdate cancelNavigationUpdate st).enRouteTime = none
      ∧ (applyStationUpdate cancelNavigationUpdate st).available = st.available)
    ∧ ((applyStationUpdate endChargeStationUpdate st).status = .available
      ∧ (applyStationUpdate endChargeStationUpdate st).driverId = none
      ∧ (applyStationUpdate endChargeStationUpdate st).enRouteTime = st.enRouteTime
      ∧ (applyStationUpdate endChargeStationUpdate st).available = st.available) := by
  simp [applyStationUpdate, resetStationUpdate, cancelNavigationUpdate, endChargeStationUpdate]

def c5Station : StationData :=
  { id := "s5", networkType := "In-net", chargeRate := "2.00", address := "5 Elm St"
    available := true, latitude := 0, longitude := 0, ownerId := "o5"
    ownerStripeId := none, status := .available, driverId := none, enRouteTime := none }

def c5User : UserData :=
  { email := "d5@x.com", role := "Driver", walletBalance := some 0, stripeToken := some "tok5" }

/-- C5 counterexample: station s5 is available with no occupying driver, so
it satisfies the invariant; a successful `startCharge` on it (driver in
range, not charging elsewhere, payment method on file) writes only
`{ status: 'charging', available: false }`, leaving `driverId` unset, and
the resulting station violates status=available ⇔ occupying-driver unset. -/
theorem claim5_startCharge_breaks_invariant_cex :
    stationInv c5Station
    ∧ startCharge (fun _ _ _ _ => 0) [c5Station] c5User c5Station ⟨0, 0⟩ 100 =
        (.ok (mkChargeSession c5User c5Station 100),
         [.stationUpdate "s5" startChargeStationUpdate,
          .chargeCreate (mkChargeSession c5User c5Station 100)])
    ∧ ¬ stationInv (applyStationUpdate startChargeStationUpdate c5Station) := by
  refine ⟨by decide, ?_, by decide⟩
  unfold startCharge
  rw [show chargingCount [c5Station] c5User.email = 0 from rfl,
      if_neg (lt_irrefl 0),
      if_neg (by norm_num : ¬ ((0 : ℚ) > 1/2)),
      if_neg (by decide : ¬ ¬ jsTruthyStr c5User.stripeToken = true)]
  rfl

/-- C5 amended: the station writes of `startNavigation`, `endCharge`, the
cancel-navigation handler and `resetStation` always produce a station
satisfying status=available ⇔ occupying-driver unset; `startCharge`'s
write leaves the occupying-driver field untouched while setting
status=charging, so it produces an invariant-satisfying station if and only
if the occupying driver was already set before the call (as after a
reserve). -/
theorem claim5_station_writes_invariant (st : StationData) (email : String) (now : ℤ) :
    stationInv (applyStationUpdate (startNavUpdate email now) st)
    ∧ stationInv (applyStationUpdate endChargeStationUpdate st)
    ∧ stationInv (applyStationUpdate cancelNavigationUpdate st)
    ∧ stationInv (applyStationUpdate resetStationUpdate st)
    ∧ (stationInv (applyStationUpdate startChargeStationUpdate st) ↔ st.driverId ≠ none) := by
  simp [stationInv, applyStationUpdate, startNavUpdate, endChargeStationUpdate,
        cancelNavigationUpdate, resetStationUpdate, startChargeStationUpdate]

/-- C7: on every stations snapshot, each station with status enRoute whose
(non-zero, hence JS-truthy) en-route timestamp is more than 15 minutes old
is auto-released by the lazy check: in the resulting station list it has
status=available and no occupying driver. -/
theorem claim7_enroute_timeout_swept (now : ℤ) (stations : List StationData)
    (st : StationData) (t : ℤ) (hmem : st ∈ stations)
    (hs : st.status = .enRoute) (ht : st.enRouteTime = some t) (ht0 : t ≠ 0)
    (hold : now - t > 15 * 60 * 1000) :
    (sweepStation now st).status = .available
    ∧ (sweepStation now st).driverId = none
    ∧ sweepStation now st ∈ stationsSnapshotCheck now stations := by
  have htr : jsTruthyInt st.enRouteTime = true := by
    rw [ht]; simp [jsTruthyInt, ht0]
  have hgd : st.enRouteTime.getD 0 = t := by rw [ht]; rfl
  have hold9 : (900000 : ℤ) < now - t := by linarith
  refine ⟨?_, ?_, ?_⟩
  · simp [sweepStation, hs, htr, hgd, hold9, applyStationUpdate, resetStationUpdate]
  · simp [sweepStation, hs, htr, hgd, hold9, applyStationUpdate, resetStationUpdate]
  · simpa [stationsSnapshotCheck] using List.mem_map_of_mem (sweepStation now) hmem

def w7Station : StationData :=
  { id := "s7", networkType := "In-net", chargeRate := "2.00", address := "7 Elm St"
    available := false, latitude := 0, longitude := 0, ownerId := "o7"
    ownerStripeId := none, status := .enRoute, driverId := some "d7@x.com"
    enRouteTime := some 1000 }

theorem claim7_enroute_timeout_swept_witness :
    (sweepStation 1000000 w7Station).status = .available
    ∧ (sweepStation 1000000 w7Station).driverId = none
    ∧ sweepStation 1000000 w7Station ∈ stationsSnapshotCheck 1000000 [w7Station] :=
  claim7_enroute_timeout_swept 1000000 [w7Station] w7Station 1000
    (by simp) rfl rfl (by decide) (by decide)

def w8User : UserData :=
  { email := "d8@x.com", role := "Driver", walletBalance := none, stripeToken := none }

def w8Station : StationData :=
  { id := "s8", networkType := "In-net", chargeRate := "2.00", address := "8 Elm St"
    available := true, latitude := 0, longitude := 0, ownerId := "o8"
    ownerStripeId := none, status := .available, driverId := none, enRouteTime := none }

/-- C8: a driver with no stored payment method who calls `startCharge`
within 0.5 miles of the station while not charging elsewhere gets the
Billing-Required outcome, and the call performs no station write and
creates no charge session (its write list is empty). -/
theorem claim8_startCharge_billing_required (calcDist : ℚ → ℚ → ℚ → ℚ → ℚ)
    (stations : List StationData) (user : UserData) (sel : StationData)
    (loc : Coord) (now : ℤ)
    (hnotbusy : chargingCount stations user.email = 0)
    (hdist : calcDist loc.latitude loc.longitude sel.latitude sel.longitude ≤ 1/2)
    (htok : user.stripeToken = none) :
    startCharge calcDist stations user sel loc now = (.billingRequired, []) := by
  unfold startCharge
  rw [hnotbusy, htok, if_neg (lt_irrefl 0), if_neg (not_lt.mpr hdist),
      if_pos (by decide : ¬ jsTruthyStr none = true)]

theorem claim8_startCharge_billing_required_witness :
    startCharge (fun _ _ _ _ => 0) [] w8User w8Station ⟨0, 0⟩ 0 = (.billingRequired, []) :=
  claim8_startCharge_billing_required (fun _ _ _ _ => 0) [] w8User w8Station ⟨0, 0⟩ 0
    rfl (by norm_num) rfl

/-- C9: the session created by `startCharge` carries the driver's email
address as `driverId`; both settlement phases look the driver's user
document up at `driverId.split('_')[0]`, i.e. the email truncated at its
first underscore, while `handleSaveBilling` stores the payment method at
the identity provider's uid — so the settlement lookup key equals the
billing-storage key exactly when the email's prefix before the first
underscore equals the uid. -/
theorem claim9_settlement_lookup_key (user : UserData) (sel : StationData)
    (now : ℤ) (uid : String) :
    (mkChargeSession user sel now).driverId = user.email
    ∧ startChargeProcessUserKey (mkChargeSession user sel now).driverId =
        jsSplitHead user.email
    ∧ processChargeUserKey (mkChargeSession user sel now).driverId =
        jsSplitHead user.email
    ∧ (startChargeProcessUserKey (mkChargeSession user sel now).driverId =
         billingUserDocId uid ↔ jsSplitHead user.email = uid)
    ∧ (processChargeUserKey (mkChargeSession user sel now).driverId =
         billingUserDocId uid ↔ jsSplitHead user.email = uid) :=
  ⟨rfl, rfl, rfl, Iff.rfl, Iff.rfl⟩

def c1User : UserData :=
  { email := "d1cex@x.com", role := "Driver", walletBalance := some 0
    stripeToken := some "tok1" }

def c1StationRec : StationData :=
  { id := "s1", networkType := "In-net", chargeRate := "2.00", address := "1 Elm St"
    available := false, latitude := 0, longitude := 0, ownerId := "o1"
    ownerStripeId := some "acct1", status := .charging, driverId := some "d1cex@x.com"
    enRouteTime := none }

def c1After : ChargeSession :=
  { id := "d1cex@x.com_0", stationId := "s1", driverId := "d1cex@x.com", startTime := 0
    endTime := some 600000, totalCost := some 10, status := some "authorized"
    paymentIntentId := some "pi1", error := none }

def c1Before : ChargeSession :=
  { c1After with endTime := none, totalCost := none }

def c1Event : ChargeEvent := { before := c1Before, after := c1After }

def c1State : SettlementState :=
  { users := fun _ => some c1User
    stations := fun _ => some c1StationRec
    charge := c1After
    captures := []
    transfers := [] }

/-- C1 counterexample: `processCharge` never checks that the session's
current status is still "authorized" — its only guard is the endTime
transition read from the delivered event itself.  Delivering the very same
close event twice therefore performs a second capture and a second owner
transfer: after the duplicate delivery the capture log and the transfer log
each hold two entries, so the re-delivery is not a no-op and the session is
double-charged (even though its status reads "completed"). -/
theorem claim1_duplicate_delivery_double_charge_cex :
    (processCharge c1Event c1State).captures.length = 1
    ∧ (processCharge c1Event c1State).transfers.length = 1
    ∧ (processCharge c1Event c1State).charge.status = some "completed"
    ∧ (processCharge c1Event (processCharge c1Event c1State)).captures.length = 2
    ∧ (processCharge c1Event (processCharge c1Event c1State)).transfers.length = 2
    ∧ (processCharge c1Event (processCharge c1Event c1State)).charge.status =
        some "completed" := by
  refine ⟨rfl, rfl, rfl, rfl, rfl, rfl⟩

/-- C1 amended: `processCharge` guards only on the delivered event's endTime
transition (`!prevData.endTime && data.endTime`).  Any event whose
before-revision already has an endTime — in particular every follow-up
event generated by the handler's own status updates — is a strict no-op,
but the handler performs no check of the session's current status, so an
exact duplicate delivery of the original close event re-runs the capture
and transfer (see the counterexample). -/
theorem claim1_processed_event_noop (ev : ChargeEvent) (s : SettlementState)
    (h : jsTruthyInt ev.before.endTime = true) :
    processCharge ev s = s := by
  simp [processCharge, h]

def w1Event : ChargeEvent :=
  { before := c1After, after := c1After }

theorem claim1_processed_event_noop_witness :
    processCharge w1Event c1State = c1State :=
  claim1_processed_event_noop w1Event c1State (by decide)

end EvX
